import Mathlib

/-!
Verification of the resume-screening scoring engine
(`text_processor.py`, `resume_matcher.py`, and the scoring part of
`app.py`) against its natural-language specification.

The Python code is shallowly embedded: strings are Lean `String`s
(ASCII; `str.lower` is modelled by `Char.toLower`, which agrees with
Python on ASCII), Python floats are modelled as exact rationals `ℚ`,
and a Python function that can raise an uncaught exception is modelled
as returning `Option` (with `none` for the raise).  Calls into external
ML libraries (the sentence-transformer model and the TF-IDF
vectorizer/cosine similarity, both in `resume_matcher.py`, and NLTK's
tokenizer/lemmatizer in `text_processor.py`) are modelled as explicit
parameters: the surrounding control flow and arithmetic are embedded
faithfully.
-/

namespace FlaskBackend

/-! ### Basic string helpers -/

/-- ASCII lowercasing, modelling Python `str.lower()` on ASCII text. -/
def toLowerStr (s : String) : String := String.mk (s.toList.map Char.toLower)

/-- Python `s.replace(c, '')` for a single-character target: remove all
occurrences of `c`. -/
def removeAllChar (c : Char) (s : String) : String :=
  String.mk (s.toList.filter (fun d => d ≠ c))

/-- Python `s.split(c)` for a single-character separator: split at every
occurrence, keeping empty pieces. -/
def splitOnCharAux (c : Char) : List Char → List Char → List (List Char)
  | acc, [] => [acc.reverse]
  | acc, d :: ds =>
    if d = c then acc.reverse :: splitOnCharAux c [] ds
    else splitOnCharAux c (d :: acc) ds

def pySplitChar (c : Char) (s : String) : List String :=
  (splitOnCharAux c [] s.toList).map String.mk

/-- The whitespace characters matched by Python's `\s` (ASCII range). -/
def isPySpace (c : Char) : Bool :=
  c = ' ' || c = '\t' || c = '\n' || c = '\r' || c = '\x0b' || c = '\x0c'

/-- Python `\w`: ASCII letters, digits and underscore. -/
def isWordChar (c : Char) : Bool := c.isAlphanum || c = '_'

/-- Test `listStartsWith n h`: true iff `n` is an initial segment of `h`. -/
def listStartsWith : List Char → List Char → Bool
  | [], _ => true
  | _ :: _, [] => false
  | a :: as, b :: bs => a = b && listStartsWith as bs

/-- Test `listContig n h`: true iff `n` occurs contiguously inside `h`. -/
def listContig (n : List Char) : List Char → Bool
  | [] => listStartsWith n []
  | c :: cs => listStartsWith n (c :: cs) || listContig n cs

/-- Python's `needle in hay` substring test. -/
def substrOf (needle hay : String) : Bool := listContig needle.toList hay.toList

theorem listStartsWith_iff (n h : List Char) :
    listStartsWith n h = true ↔ ∃ t, h = n ++ t := by
  induction n generalizing h with
  | nil => simp [listStartsWith]
  | cons a as ih =>
    cases h with
    | nil => simp [listStartsWith]
    | cons b bs =>
      simp only [listStartsWith, Bool.and_eq_true, decide_eq_true_eq, ih, List.cons_append,
        List.cons.injEq]
      constructor
      · rintro ⟨rfl, t, rfl⟩; exact ⟨t, rfl, rfl⟩
      · rintro ⟨t, rfl, rfl⟩; exact ⟨rfl, t, rfl⟩

theorem listContig_iff (n h : List Char) :
    listContig n h = true ↔ ∃ s t, h = s ++ n ++ t := by
  induction h with
  | nil =>
    simp only [listContig, listStartsWith_iff]
    constructor
    · rintro ⟨t, ht⟩; exact ⟨[], t, by simpa using ht⟩
    · rintro ⟨s, t, hst⟩
      rcases List.append_eq_nil.mp (List.append_eq_nil.mp hst.symm).1 with ⟨rfl, rfl⟩
      exact ⟨t, by simpa using hst⟩
  | cons c cs ih =>
    simp only [listContig, Bool.or_eq_true, listStartsWith_iff, ih]
    constructor
    · rintro (⟨t, ht⟩ | ⟨s, t, hst⟩)
      · exact ⟨[], t, by simpa using ht⟩
      · exact ⟨c :: s, t, by simp [hst]⟩
    · rintro ⟨s, t, hst⟩
      cases s with
      | nil => exact Or.inl ⟨t, by simpa using hst⟩
      | cons x xs =>
        right
        refine ⟨xs, t, ?_⟩
        have := hst
        simp only [List.cons_append, List.cons.injEq] at this
        exact this.2

theorem substrOf_trans {a b c : String}
    (hab : substrOf a b = true) (hbc : substrOf b c = true) : substrOf a c = true := by
  unfold substrOf at *
  rw [listContig_iff] at hab hbc ⊢
  obtain ⟨s₁, t₁, h₁⟩ := hab
  obtain ⟨s₂, t₂, h₂⟩ := hbc
  refine ⟨s₂ ++ s₁, t₁ ++ t₂, ?_⟩
  rw [h₂, h₁]
  simp [List.append_assoc]

/-! ### `int()` parsing

`resume_matcher.py` calls Python's `int` on pieces of the experience
requirement string.  `toIntOpt` models `int()` on a string: optional
surrounding whitespace, an optional sign, then one or more ASCII
digits; `none` models the `ValueError` raised otherwise.  (Underscore
digit grouping and non-ASCII digits are not modelled; no input in this
code base uses them.) -/

def digitsToNat (cs : List Char) : ℕ :=
  cs.foldl (fun a c => a * 10 + (c.toNat - '0'.toNat)) 0

def toIntOpt (s : String) : Option ℤ :=
  let cs := ((s.toList.dropWhile isPySpace).reverse.dropWhile isPySpace).reverse
  let signDigits : ℤ × List Char :=
    match cs with
    | '+' :: rest => (1, rest)
    | '-' :: rest => (-1, rest)
    | rest => (1, rest)
  if signDigits.2 ≠ [] ∧ signDigits.2.all Char.isDigit then
    some (signDigits.1 * digitsToNat signDigits.2)
  else none

/-! ### Parsing the job's experience requirement

`resume_matcher.py` lines 72-78.  `job_max_exp` starts at `float('inf')`,
modelled as `none`; the result `none` of `parseJobExp` models an uncaught
`ValueError` from `int()`. -/

def parseJobExp (s : String) : Option (ℤ × Option ℤ) :=
  if s.toList.contains '-' then
    match pySplitChar '-' s with
    | p0 :: p1 :: _ =>
      match toIntOpt p0,
        (if p1.toList.contains '+' then toIntOpt (removeAllChar '+' p1) else toIntOpt p1) with
      | some mn, some mx => some (mn, some mx)
      | _, _ => none
    | _ => none
  else if s.toList.contains '+' then
    match toIntOpt (removeAllChar '+' s) with
    | some mn => some (mn, none)
    | none => none
  else
    some (0, none)

/-! ### Extracting a years-of-experience range from the resume text

Models `re.search(r'(\d+)(?:\s*-\s*(\d+))?\+?\s*(?:year|yr)s?(?:\s*of)?\s*experience', text)`
from `resume_matcher.py` lines 82-85.  The pattern is deterministic
enough that the only backtracking points are the optional groups, which
are tried greedily with a fallback to the empty match, exactly as
Python's engine does. -/

def dropWs (cs : List Char) : List Char := cs.dropWhile isPySpace

/-- Greedy `\d+` at the head of the input: value and rest, or `none`. -/
def takeDigits (cs : List Char) : Option (ℕ × List Char) :=
  let ds := cs.takeWhile Char.isDigit
  if ds.isEmpty then none else some (digitsToNat ds, cs.drop ds.length)

/-- Strip a literal character sequence from the head of the input. -/
def stripLits : List Char → List Char → Option (List Char)
  | [], cs => some cs
  | a :: as, b :: bs => if a = b then stripLits as bs else none
  | _ :: _, [] => none

/-- Match `\s*experience` at the head of the input. -/
def matchExperienceLit (cs : List Char) : Bool :=
  (stripLits "experience".toList (dropWs cs)).isSome

/-- Match `(?:\s*of)?\s*experience`: the optional `of` group is tried greedily
first, falling back to the empty match. -/
def matchOfExperience (cs : List Char) : Bool :=
  (match stripLits "of".toList (dropWs cs) with
    | some r => matchExperienceLit r
    | none => false)
  || matchExperienceLit cs

/-- Match `\+?\s*(?:year|yr)s?(?:\s*of)?\s*experience` at the head of the input. -/
def matchExpTail (cs : List Char) : Bool :=
  let cs1 := match cs with | '+' :: r => r | r => r
  let cs2 := dropWs cs1
  match stripLits "year".toList cs2 with
  | some r => (match r with
      | 's' :: r2 => matchOfExperience r2 || matchOfExperience r
      | _ => matchOfExperience r)
  | none =>
    match stripLits "yr".toList cs2 with
    | some r => (match r with
        | 's' :: r2 => matchOfExperience r2 || matchOfExperience r
        | _ => matchOfExperience r)
    | none => false

/-- One attempt of the full pattern anchored at the head of `cs`,
returning the captured groups `(\d+)` and the optional range `(\d+)`. -/
def matchExpAt (cs : List Char) : Option (ℕ × Option ℕ) :=
  match takeDigits cs with
  | none => none
  | some (n1, r1) =>
    -- greedy attempt at the optional `(?:\s*-\s*(\d+))?` group
    let ranged : Option (ℕ × List Char) :=
      match stripLits ['-'] (dropWs r1) with
      | some r2 =>
        match takeDigits (dropWs r2) with
        | some (n2, r3) => if matchExpTail r3 then some (n2, r3) else none
        | none => none
      | none => none
    match ranged with
    | some (n2, _) => some (n1, some n2)
    | none => if matchExpTail r1 then some (n1, none) else none

/-- Model of `re.search`: try the pattern at each position, leftmost match wins. -/
def searchExp : List Char → Option (ℕ × Option ℕ)
  | [] => none
  | c :: rest =>
    match matchExpAt (c :: rest) with
    | some r => some r
    | none => searchExp rest

/-- Lines 82-88: `(resume_min_years, resume_max_years)` from the resume
text, with the max defaulting to the min when no range is given. -/
def extractResumeYears (text : String) : Option (ℕ × ℕ) :=
  match searchExp text.toList with
  | some (n1, some n2) => some (n1, n2)
  | some (n1, none) => some (n1, n1)
  | none => none

/-! ### The experience component -/

/-- Lines 90-98: classify the parsed job range (`jobMax = none` is
`float('inf')`) against the resume's years range. -/
def classifyExperience (jobMin : ℤ) (jobMax : Option ℤ) (rMin rMax : ℕ) : ℚ :=
  if decide (jobMin ≤ (rMax : ℤ)) &&
      (match jobMax with | none => true | some m => decide ((rMin : ℤ) ≤ m)) then 1
  else if (match jobMax with | none => false | some m => decide (m < (rMin : ℤ))) then 7/10
  else if decide ((rMax : ℤ) < jobMin) then 3/10
  else 1/2

/-- Lines 69-116: the experience component.  `none` models the uncaught
`ValueError` from `int()` on a malformed requirement string. -/
def experienceScore (experience_required job_description_text resume_processed_text : String) :
    Option ℚ :=
  if experience_required ≠ "" ∧ experience_required ≠ "Any" then
    match parseJobExp experience_required with
    | none => none
    | some (jobMin, jobMax) =>
      match extractResumeYears resume_processed_text with
      | some (rMin, rMax) => some (classifyExperience jobMin jobMax rMin rMax)
      | none =>
        let jd := toLowerStr job_description_text
        let rt := toLowerStr resume_processed_text
        some (if substrOf "senior" jd && substrOf "senior" rt then 9/10
          else if substrOf "junior" jd && substrOf "junior" rt then 9/10
          else if substrOf "entry-level" jd && substrOf "entry-level" rt then 9/10
          else if substrOf "lead" jd && substrOf "lead" rt then 17/20
          else if substrOf "manager" jd && substrOf "manager" rt then 4/5
          else 1/2)
  else some 0

/-! ### The skill-match component (`resume_matcher.py` lines 52-66)

Python's `set(...)` of lowercased skills is modelled as the `dedup` of
the lowercased list; all uses below are order-independent (membership
and cardinality). -/

/-- Line 53: `set([skill.lower() for skill in required_skills])`. -/
def requiredSkillsSet (required_skills : List String) : List String :=
  (required_skills.map toLowerStr).dedup

/-- Lines 54-57: required skills also present (lowercased) among the
resume's extracted skills. -/
def matchedRequiredSkills (required_skills resume_extracted_skills : List String) :
    List String :=
  (requiredSkillsSet required_skills).filter
    (fun s => decide (s ∈ resume_extracted_skills.map toLowerStr))

/-- Lines 58-66: match fraction with the non-linear boost/penalty. -/
def skillMatchPercentage (required_skills resume_extracted_skills : List String) : ℚ :=
  let base : ℚ :=
    if (requiredSkillsSet required_skills).length > 0 then
      ((matchedRequiredSkills required_skills resume_extracted_skills).length : ℚ) /
        ((requiredSkillsSet required_skills).length : ℚ)
    else 0
  if base > 7/10 then base * (11/10)
  else if base < 3/10 then base * (4/5)
  else base

/-! ### The semantic component (`resume_matcher.py` lines 27-49)

`modelLoaded` is whether the module-level `SentenceTransformer` loaded
(`model` is not `None`); `embedOk` is whether `model.encode` succeeded.
`embedSim` and `tfidfSim` stand for the cosine similarities computed by
the external libraries on the two texts. -/

def semanticSimilarity (modelLoaded embedOk : Bool) (embedSim tfidfSim : ℚ) : ℚ :=
  let raw := if modelLoaded then (if embedOk then embedSim else tfidfSim) else tfidfSim
  (raw + 1) / 2

/-! ### The combined scorer (`resume_matcher.py` lines 20-133) -/

def WEIGHT_SEMANTIC : ℚ := 7/20
def WEIGHT_SKILL_MATCH : ℚ := 9/20
def WEIGHT_EXPERIENCE : ℚ := 1/5

/-- Lines 119-133: weighted combination, normalization to 100 and
`np.clip(final_score, 0, 100)`.  Returns `(final_score,
matched_required_skills)`; `none` models the uncaught `ValueError`
from the experience parsing. -/
def calculate_match_score_enhanced (modelLoaded embedOk : Bool) (embedSim tfidfSim : ℚ)
    (job_description_text : String) (required_skills : List String)
    (experience_required : String) (resume_processed_text : String)
    (resume_extracted_skills : List String) : Option (ℚ × List String) :=
  let sem := semanticSimilarity modelLoaded embedOk embedSim tfidfSim
  let skill := skillMatchPercentage required_skills resume_extracted_skills
  match experienceScore experience_required job_description_text resume_processed_text with
  | none => none
  | some expScore =>
    let total := WEIGHT_SEMANTIC + WEIGHT_SKILL_MATCH + WEIGHT_EXPERIENCE
    let fs := (sem * WEIGHT_SEMANTIC + skill * WEIGHT_SKILL_MATCH +
      expScore * WEIGHT_EXPERIENCE) / total * 100
    some (min (max fs 0) 100, matchedRequiredSkills required_skills resume_extracted_skills)

/-! ### The orchestration layer (`app.py` lines 501-507) -/

/-- Python `int()` on a float/rational: truncation toward zero. -/
def pyInt (q : ℚ) : ℤ := if 0 ≤ q then ⌊q⌋ else ⌈q⌉

/-- Line 503: `required_department and required_department.lower() in
resume_processed_text.lower()`. -/
def departmentMatches (required_department resume_processed_text : String) : Bool :=
  required_department ≠ "" &&
    substrOf (toLowerStr required_department) (toLowerStr resume_processed_text)

/-- Lines 505-507: `final_score = int(match_score * department_match_factor)` followed
by `min(final_score, 100)`. -/
def screenFinalScore (match_score : ℚ) (deptMatch : Bool) : ℤ :=
  let factor : ℚ := if deptMatch then 21/20 else 1
  min (pyInt (match_score * factor)) 100

/-- The scoring pipeline of `screen_resumes` for one resume: the
enhanced scorer followed by the department boost and truncation. -/
def screenPipeline (modelLoaded embedOk : Bool) (embedSim tfidfSim : ℚ)
    (job_description_text : String) (required_skills : List String)
    (experience_required required_department : String) (resume_processed_text : String)
    (resume_extracted_skills : List String) : Option ℤ :=
  (calculate_match_score_enhanced modelLoaded embedOk embedSim tfidfSim
      job_description_text required_skills experience_required resume_processed_text
      resume_extracted_skills).map
    (fun p => screenFinalScore p.1
      (departmentMatches required_department resume_processed_text))

/-! ### Word-boundary keyword matching (`text_processor.py`)

`extract_skills_from_text` (line 88) matches each skill with
`r'\b' + re.escape(skill).replace('\\.', '[\\.\\s]?') + r'\b'`:
after `re.escape`, every character of the phrase is a literal except
that each escaped dot `\.` is replaced by the optional class
`[\.\s]?`.  `categorize_resume` (line 159) uses
`r'\b' + re.escape(keyword) + r'\b'`: all characters literal.
The patterns are modelled as item lists; `\b` is the Python word
boundary (word-ness of the two surrounding positions differs, with
out-of-range counting as non-word). -/

inductive PatItem where
  | lit (c : Char)
  | optDotSpace
deriving DecidableEq

/-- Pattern for a skill phrase: dots become the optional `[\.\s]?`. -/
def skillPattern (skill : String) : List PatItem :=
  skill.toList.map (fun c => if c = '.' then PatItem.optDotSpace else PatItem.lit c)

/-- Pattern for a category keyword: every character literal. -/
def keywordPattern (kw : String) : List PatItem :=
  kw.toList.map PatItem.lit

/-- Match the items at the head of `cs`; `last` is the character just
before the current position (`none` at the very start).  Returns the
last consumed character and the rest.  The optional class is greedy
with fallback to the empty match, as in Python's engine. -/
def matchItems : List PatItem → Option Char → List Char → Option (Option Char × List Char)
  | [], last, cs => some (last, cs)
  | PatItem.lit _ :: _, _, [] => none
  | PatItem.lit c :: ps, _, d :: cs =>
    if d = c then matchItems ps (some d) cs else none
  | PatItem.optDotSpace :: ps, last, cs =>
    (match cs with
      | d :: cs2 =>
        if d = '.' || isPySpace d then matchItems ps (some d) cs2 else none
      | [] => none).orElse
    (fun _ => matchItems ps last cs)

def wordOpt : Option Char → Bool
  | none => false
  | some c => isWordChar c

/-- Python `\b` between two (possibly absent) characters. -/
def boundary (a b : Option Char) : Bool := wordOpt a != wordOpt b

/-- One attempt of `\b <items> \b` at the current position. -/
def attemptPat (ps : List PatItem) (prev : Option Char) (cs : List Char) : Bool :=
  boundary prev cs.head? &&
    (match matchItems ps prev cs with
      | some (last, rest) => boundary last rest.head?
      | none => false)

/-- Model of `re.search`: try the anchored pattern at every position. -/
def searchPat (ps : List PatItem) : Option Char → List Char → Bool
  | prev, [] => attemptPat ps prev []
  | prev, c :: rest => attemptPat ps prev (c :: rest) || searchPat ps (some c) rest

/-- Line 88: does the skill's pattern match anywhere in the text? -/
def skillFound (skill text : String) : Bool :=
  searchPat (skillPattern skill) none text.toList

/-- Line 159: does the category keyword match anywhere in the text? -/
def keywordFound (kw text : String) : Bool :=
  searchPat (keywordPattern kw) none text.toList

/-! ### Skill extraction (`text_processor.py` lines 38-91) -/

/-- Lines 44-80: the static skill dictionary, duplicates included
("backend", "autocad", "solidworks", "auditing" appear twice as in the
source). -/
def common_skills : List String := [
  "python", "java", "javascript", "react", "node.js", "sql", "aws", "docker",
  "kubernetes", "machine learning", "data analysis", "project management",
  "agile", "scrum", "communication", "leadership", "figma", "photoshop",
  "seo", "marketing", "finance", "hr", "sales", "engineering", "design",
  "cloud", "devops", "backend", "backend", "fullstack", "ui/ux", "data science",
  "artificial intelligence", "cybersecurity", "network", "database", "mobile development",
  "android", "ios", "web development", "content creation", "social media",
  "public relations", "brand management", "market research", "financial analysis",
  "accounting", "auditing", "investment", "recruitment", "employee relations",
  "training", "supply chain", "logistics", "operations management", "product management",
  "business development", "customer service", "technical support", "graphic design",
  "illustration", "video editing", "animation", "autocad", "solidworks",
  "excel", "powerpoint", "word", "microsoft office", "google suite", "tableau", "power bi",
  "sas", "r", "c++", "c#", "go", "ruby", "php", "swift", "kotlin", "typescript",
  "spring", "hibernate", "angular", "vue.js", "django", "flask", "laravel", "symfony",
  "express.js", "mongodb", "postgresql", "mysql", "oracle", "redis", "cassandra",
  "azure", "gcp", "terraform", "ansible", "jenkins", "gitlab ci", "jira", "confluence",
  "salesforce", "sap", "erp", "crm", "qa", "testing", "automation", "manual testing",
  "api", "rest", "graphql", "microservices", "blockchain", "iot", "robotics",
  "natural language processing", "computer vision", "deep learning", "neural networks",
  "statistical analysis", "quantitative analysis", "risk management", "compliance",
  "budgeting", "forecasting", "financial reporting", "tax preparation", "auditing",
  "talent acquisition", "employee engagement", "performance management", "compensation & benefits",
  "organizational development", "change management", "negotiation", "client management",
  "lead generation", "cold calling", "sales strategy", "customer relationship management",
  "autocad", "solidworks", "catia", "revit", "bim", "fea", "cfd", "matlab", "simulink",
  "circuit design", "embedded systems", "firmware", "hardware", "manufacturing processes",
  "supply chain optimization", "inventory management", "logistics planning",
  "user research", "wireframing", "prototyping", "usability testing", "information architecture",
  "interaction design", "visual design", "brand identity", "print design", "digital art",
  "video production", "motion graphics", "3d modeling", "maya", "blender", "cinema 4d",
  "content strategy", "copywriting", "editing", "proofreading", "storytelling",
  "email marketing", "ppc", "google analytics", "social media marketing", "influencer marketing",
  "public speaking", "presentation skills", "problem-solving", "critical thinking",
  "adaptability", "teamwork", "collaboration", "creativity", "innovation", "attention to detail"]

/-- Lines 82-91: lowercase the text, keep the skills whose pattern
matches, strip dots for display, deduplicate.  Python's `list(set(_))`
has unspecified order; it is modelled by `dedup`, and all claims about
the result are stated as membership. -/
def extract_skills_from_text (text : String) : List String :=
  let processed := toLowerStr text
  ((common_skills.filter (fun s => skillFound s processed)).map
    (fun s => removeAllChar '.' s)).dedup

/-! ### Resume categorization (`text_processor.py` lines 94-166)

Python dicts iterate in insertion order, so the dictionary of
categories is an ordered association list. -/

def categories : List (String × List String) := [
  ("Tech", ["software", "developer", "engineer", "python", "java", "javascript", "react", "node.js",
    "sql", "aws", "cloud", "devops", "kubernetes", "machine learning", "data science",
    "artificial intelligence", "cybersecurity", "network", "database", "backend", "backend",
    "fullstack", "mobile development", "android", "ios", "web development", "algorithm",
    "api", "microservices", "agile", "scrum", "git", "linux", "windows server", "azure", "gcp",
    "programming", "development", "coding", "django", "flask", "typescript", "c++", "c#", "go",
    "ruby", "php", "swift", "kotlin", "rest", "graphql", "blockchain", "iot", "nlp", "computer vision",
    "deep learning", "neural networks", "big data", "hadoop", "spark", "kafka", "etl", "data warehousing",
    "business intelligence", "devsecops", "site reliability engineer", "sre", "qa engineer", "test automation"]),
  ("Marketing", ["marketing", "seo", "sem", "content", "social media", "brand", "campaign",
    "public relations", "pr", "advertisement", "analytics", "market research",
    "digital marketing", "email marketing", "crm", "google ads", "facebook ads",
    "copywriting", "strategy", "advertising", "ppc", "google analytics", "influencer marketing",
    "content strategy", "storytelling", "media planning", "demand generation", "lead generation"]),
  ("Design", ["design", "ui/ux", "graphic", "photoshop", "illustrator", "figma", "sketch",
    "adobe xd", "portfolio", "visual", "creative", "typography", "branding",
    "user experience", "user interface", "web design", "product design", "animation",
    "ux designer", "ui designer", "interaction design", "motion graphics", "3d modeling",
    "industrial design", "fashion design", "interior design", "architectural design"]),
  ("Finance", ["finance", "accounting", "audit", "financial analysis", "investment", "banking",
    "tax", "economics", "portfolio", "cpa", "cfa", "bookkeeping", "budget", "forecasting",
    "risk management", "compliance", "financial reporting", "treasury", "corporate finance",
    "wealth management", "financial planning", "equity research", "fixed income"]),
  ("HR", ["hr", "human resources", "recruitment", "talent acquisition", "employee relations",
    "onboarding", "payroll", "benefits", "hrms", "workforce", "compensation", "training",
    "organizational development", "performance management", "employee engagement", "hr business partner",
    "diversity and inclusion", "learning and development"]),
  ("Sales", ["sales", "business development", "account management", "client relations", "crm",
    "negotiation", "lead generation", "quota", "revenue", "customer acquisition",
    "sales strategy", "cold calling", "sales operations", "channel sales", "enterprise sales",
    "solution selling", "key account management"]),
  ("Engineering", ["engineer", "mechanical", "electrical", "civil", "chemical", "aerospace",
    "cad", "autocad", "solidworks", "matlab", "simulation", "design", "manufacturing",
    "r&d", "research and development", "structural", "systems", "mechatronics",
    "robotics", "automation", "circuit design", "embedded systems", "firmware", "hardware design",
    "process engineering", "quality engineering", "industrial engineering", "biomedical engineering"]),
  ("Social Media", ["social media", "instagram", "facebook", "twitter", "linkedin", "tiktok",
    "community management", "influencer", "content creation", "engagement", "hootsuite", "buffer",
    "social media strategy", "social media marketing", "platform management", "online community"]),
  ("Operations", ["operations", "logistics", "supply chain", "procurement", "inventory management",
    "process improvement", "lean manufacturing", "six sigma", "quality control",
    "project management office", "pmo", "business operations", "operational excellence"]),
  ("Healthcare", ["healthcare", "medical", "clinical", "nurse", "doctor", "physician", "hospital",
    "patient care", "pharmacist", "biotechnology", "pharmaceutical", "research", "dentist",
    "therapist", "public health", "epidemiology", "health administration"]),
  ("Education", ["education", "teacher", "professor", "instructor", "curriculum development",
    "e-learning", "academic advising", "student affairs", "higher education", "k-12",
    "educational technology", "tutoring", "training development"]),
  ("Customer Service", ["customer service", "customer support", "client support", "help desk",
    "technical support", "call center", "customer relations", "service desk",
    "customer success", "client success", "support specialist"]),
  ("Legal", ["legal", "law", "attorney", "lawyer", "paralegal", "litigation", "corporate law",
    "compliance", "intellectual property", "contract law", "legal research", "juris", "esq"]),
  ("Project Management", ["project management", "pmp", "scrum master", "agile coach", "product owner",
    "program management", "portfolio management", "jira", "confluence", "trello",
    "asana", "risk management", "stakeholder management", "budget management"])]

/-- Line 163: the generic role nouns checked by plain substring
containment (`k in text`). -/
def genericRoleNouns : List String :=
  ["analyst", "consultant", "specialist", "manager", "coordinator"]

/-- Lines 94-166: first category (in dictionary order) with any
whole-word keyword match; otherwise "Other" if a generic role noun is
a substring, otherwise "Uncategorized". -/
def categorize_resume (text : String) : String :=
  let t := toLowerStr text
  match categories.find? (fun c => c.2.any (fun kw => keywordFound kw t)) with
  | some c => c.1
  | none =>
    if genericRoleNouns.any (fun k => substrOf k t) then "Other"
    else "Uncategorized"

/-! ### The text normalizer (`text_processor.py` lines 22-35)

`word_tokenize`, the WordNet lemmatizer and the NLTK stop-word list are
external components, taken as parameters; the three regex
substitutions, the lowercasing, the stop-word filter and the final
join are embedded. -/

def isNonSpace (c : Char) : Bool := !isPySpace c

def headNonSpace : List Char → Bool
  | [] => false
  | c :: _ => isNonSpace c

def headWordChar : List Char → Bool
  | [] => false
  | c :: _ => isWordChar c

theorem length_dropWhile_le (p : Char → Bool) (l : List Char) :
    (l.dropWhile p).length ≤ l.length := by
  induction l with
  | nil => simp [List.dropWhile]
  | cons a as ih =>
    by_cases h : p a = true
    · simp only [List.dropWhile, h]
      exact Nat.le_succ_of_le ih
    · simp [List.dropWhile, h]

/-- Line 24: `re.sub(r'http\S+|www\S+|https\S+', '', text)`.  The
alternation is tried in order at each position (the `https\S+` branch
is subsumed by `http\S+`); a match consumes the prefix and the maximal
following run of non-space characters. -/
def removeUrls (l : List Char) : List Char :=
  match l with
  | [] => []
  | c :: cs =>
    if listStartsWith "http".toList (c :: cs) && headNonSpace ((c :: cs).drop 4) then
      removeUrls (((c :: cs).drop 4).dropWhile isNonSpace)
    else if listStartsWith "www".toList (c :: cs) && headNonSpace ((c :: cs).drop 3) then
      removeUrls (((c :: cs).drop 3).dropWhile isNonSpace)
    else c :: removeUrls cs
termination_by l.length
decreasing_by
  · simp only [List.length_drop, List.length_cons]
    have := length_dropWhile_le isNonSpace ((c :: cs).drop 4)
    simp only [List.length_drop, List.length_cons] at this
    omega
  · simp only [List.length_drop, List.length_cons]
    have := length_dropWhile_le isNonSpace ((c :: cs).drop 3)
    simp only [List.length_drop, List.length_cons] at this
    omega
  · simp

/-- Line 26: `re.sub(r'@\w+|#\w+', '', text)`. -/
def removeMentions (l : List Char) : List Char :=
  match l with
  | [] => []
  | c :: cs =>
    if (c = '@' || c = '#') && headWordChar cs then
      removeMentions (cs.dropWhile isWordChar)
    else c :: removeMentions cs
termination_by l.length
decreasing_by
  · have := length_dropWhile_le isWordChar cs
    simp only [List.length_cons]
    omega
  · simp

/-- Line 28: the characters kept by `re.sub(r'[^a-zA-Z0-9\s\.\+\-]', '', text)`. -/
def allowedChar (c : Char) : Bool :=
  c.isAlphanum || isPySpace c || c = '.' || c = '+' || c = '-'

/-- Lines 22-35: the full normalizer.  A total pure function of its
inputs; the external tokenizer, lemmatizer and stop-word set are
parameters. -/
def preprocess_text (tokenize : String → List String) (lemmatize : String → String)
    (stop_words : List String) (text : String) : String :=
  let t1 := String.mk (removeUrls text.toList)
  let t2 := String.mk (removeMentions t1.toList)
  let t3 := String.mk (t2.toList.filter allowedChar)
  let t4 := toLowerStr t3
  let tokens := tokenize t4
  let processed := (tokens.filter (fun w => !stop_words.contains w)).map lemmatize
  String.intercalate " " processed

/-! ## Claims -/

/-! ### C2: matched skills are a subset of required ∩ extracted skills -/

/-- C2: every skill in the matched-skills list returned by the scorer is
among the lowercased required skills and among the lowercased extracted
skills of the candidate. -/
theorem C2_matched_skills_subset (modelLoaded embedOk : Bool) (embedSim tfidfSim : ℚ)
    (jd : String) (req : List String) (expReq rt : String) (ext : List String)
    (q : ℚ) (ms : List String) (s : String)
    (hcalc : calculate_match_score_enhanced modelLoaded embedOk embedSim tfidfSim
      jd req expReq rt ext = some (q, ms))
    (hs : s ∈ ms) :
    s ∈ req.map toLowerStr ∧ s ∈ ext.map toLowerStr := by
  have hms : ms = matchedRequiredSkills req ext := by
    unfold calculate_match_score_enhanced at hcalc
    cases h : experienceScore expReq jd rt with
    | none => rw [h] at hcalc; simp at hcalc
    | some e =>
      rw [h] at hcalc
      simp only [Option.some.injEq, Prod.mk.injEq] at hcalc
      exact hcalc.2.symm
  rw [hms] at hs
  unfold matchedRequiredSkills requiredSkillsSet at hs
  rw [List.mem_filter] at hs
  exact ⟨List.mem_dedup.mp hs.1, of_decide_eq_true hs.2⟩

/-- Witness for C2 at a concrete input. -/
theorem C2_witness :
    "python" ∈ ["Python"].map toLowerStr ∧ "python" ∈ ["python", "sql"].map toLowerStr :=
  C2_matched_skills_subset true true 0 0 "" ["Python"] "Any" "" ["python", "sql"]
    _ _ "python" rfl (by decide)

/-! ### C3: the [-1,1]→[0,1] remap on the TF-IDF fallback path -/

/-- C3 counterexample: with the embedding model unavailable and a TF-IDF
cosine similarity of 0, the semantic component is (0+1)/2 = 1/2, not the
raw TF-IDF value 0 that the claim asserts for the fallback path. -/
theorem C3_counterexample :
    semanticSimilarity false false 0 0 = 1/2 ∧ (1/2 : ℚ) ≠ 0 := by
  constructor
  · norm_num [semanticSimilarity]
  · norm_num

/-- C3 amended: the (similarity + 1)/2 remap is applied on every path,
including both TF-IDF fallback paths (model not loaded, and model
throwing), not only on the embedding path. -/
theorem C3_amended (embedOk : Bool) (e t : ℚ) :
    semanticSimilarity false embedOk e t = (t + 1) / 2 ∧
    semanticSimilarity true false e t = (t + 1) / 2 ∧
    semanticSimilarity true true e t = (e + 1) / 2 := by
  cases embedOk <;> simp [semanticSimilarity]

/-! ### C5: the skill-match component -/

/-- Modelled from the spec: `fraction = |R ∩ C| / |R|` over the
lowercased skill sets, 0 when R is empty. -/
def skillFractionSpec (req ext : List String) : ℚ :=
  let R := (req.map toLowerStr).dedup
  let C := (ext.map toLowerStr).dedup
  if R.length > 0 then
    ((R.filter (fun s => decide (s ∈ C))).length : ℚ) / (R.length : ℚ)
  else 0

/-- Modelled from the spec: the non-linear boost/penalty adjustment. -/
def skillAdjustSpec (f : ℚ) : ℚ :=
  if f > 7/10 then f * (11/10) else if f < 3/10 then f * (4/5) else f

/-- C5: the scorer's skill component is the spec's adjusted fraction
(boost ×1.10 above 0.7, penalty ×0.80 below 0.3, unchanged otherwise,
0 for empty R), and it is not re-clamped: a full match yields 1.1. -/
theorem C5_skill_component :
    (∀ req ext, skillMatchPercentage req ext = skillAdjustSpec (skillFractionSpec req ext)) ∧
    (∀ req ext, skillFractionSpec req ext = 1 → skillMatchPercentage req ext = 11/10) := by
  have hbase : ∀ req ext : List String,
      (requiredSkillsSet req).filter (fun s => decide (s ∈ ext.map toLowerStr)) =
      (requiredSkillsSet req).filter (fun s => decide (s ∈ (ext.map toLowerStr).dedup)) := by
    intro req ext
    apply List.filter_congr
    intro a _
    simp [List.mem_dedup]
  have heq : ∀ req ext, skillMatchPercentage req ext =
      skillAdjustSpec (skillFractionSpec req ext) := by
    intro req ext
    unfold skillMatchPercentage skillFractionSpec skillAdjustSpec matchedRequiredSkills
    rw [hbase req ext]
    rfl
  refine ⟨heq, fun req ext h => ?_⟩
  rw [heq req ext, h]
  norm_num [skillAdjustSpec]

/-- Witness for C5 at a concrete input: one required skill, matched. -/
theorem C5_witness : skillMatchPercentage ["python"] ["python"] = 11/10 :=
  C5_skill_component.2 ["python"] ["python"] (by
    have hR : (((["python"] : List String).map toLowerStr).dedup) = ["python"] := by decide
    have hfil : ((["python"] : List String).filter
        (fun s => decide (s ∈ (["python"] : List String)))) = ["python"] := by decide
    unfold skillFractionSpec
    simp only [hR, hfil]
    norm_num)

/-! ### C6: experience classification from parsed ranges -/

/-- C6: whenever the requirement is active and parses to a job range,
and the resume text yields an explicit years range, the experience
component is the overlap classification (1.0 overlap / 0.7 overqualified
/ 0.3 underqualified / 0.5 otherwise); in particular "3-5" against
"4 years experience" gives 1.0 and "5+" against "2 years experience"
gives 0.3. -/
theorem C6_experience_classification :
    (∀ expReq jd rt jm jM rm rM, expReq ≠ "" → expReq ≠ "Any" →
      parseJobExp expReq = some (jm, jM) →
      extractResumeYears rt = some (rm, rM) →
      experienceScore expReq jd rt = some (classifyExperience jm jM rm rM)) ∧
    experienceScore "3-5" "" "4 years experience" = some 1 ∧
    experienceScore "5+" "" "2 years experience" = some (3/10) := by
  refine ⟨?_, rfl, rfl⟩
  intro expReq jd rt jm jM rm rM h1 h2 hp he
  unfold experienceScore
  rw [if_pos ⟨h1, h2⟩, hp, he]

/-- Witness for C6 at the concrete inputs from the spec. -/
theorem C6_witness :
    experienceScore "3-5" "" "4 years experience" = some (classifyExperience 3 (some 5) 4 4) :=
  C6_experience_classification.1 "3-5" "" "4 years experience" 3 (some 5) 4 4
    (by decide) (by decide) (by decide) (by decide)

/-! ### C4: malformed experience-requirement strings -/

/-- C4 counterexample: on the malformed requirement "a-b" the
experience parsing raises `ValueError` (modelled by `none`), which
propagates out of the scorer; the component is not treated as "Any"
and the call does not return a score. -/
theorem C4_counterexample :
    experienceScore "a-b" "" "" = none ∧
    calculate_match_score_enhanced true true 0 0 "" ["python"] "a-b" "" ["python"] = none :=
  ⟨rfl, rfl⟩

/-- C4 amended: a malformed experience requirement (one whose range
parse fails, e.g. non-numeric text containing a dash or plus) makes the
scorer raise (modelled by `none`) rather than being treated as "Any". -/
theorem C4_amended (modelLoaded embedOk : Bool) (embedSim tfidfSim : ℚ)
    (jd : String) (req : List String) (expReq rt : String) (ext : List String)
    (h1 : expReq ≠ "") (h2 : expReq ≠ "Any") (hp : parseJobExp expReq = none) :
    experienceScore expReq jd rt = none ∧
    calculate_match_score_enhanced modelLoaded embedOk embedSim tfidfSim
      jd req expReq rt ext = none := by
  have hns : experienceScore expReq jd rt = none := by
    unfold experienceScore
    rw [if_pos ⟨h1, h2⟩, hp]
  refine ⟨hns, ?_⟩
  unfold calculate_match_score_enhanced
  rw [hns]

/-- Witness for C4 at the concrete malformed input "a-b". -/
theorem C4_witness :
    experienceScore "a-b" "x" "y" = none ∧
    calculate_match_score_enhanced true true 0 0 "x" [] "a-b" "y" [] = none :=
  C4_amended true true 0 0 "x" [] "a-b" "y" []
    (by decide) (by decide) (by decide)

/-! ### C10: keyword fallback uses substring containment -/

/-- C10: in the keyword-based experience fallback, seniority keywords
are tested by plain substring containment of the lowercased texts: if
both texts contain "leadership" (hence the substring "lead") and
neither contains "senior", "junior" or "entry-level" as a substring,
the experience component is 0.85. -/
theorem C10_keyword_substring (expReq jd rt : String) (b : ℤ × Option ℤ)
    (h1 : expReq ≠ "") (h2 : expReq ≠ "Any")
    (hp : parseJobExp expReq = some b)
    (he : extractResumeYears rt = none)
    (hjd : substrOf "leadership" (toLowerStr jd) = true)
    (hrt : substrOf "leadership" (toLowerStr rt) = true)
    (hs1 : substrOf "senior" (toLowerStr jd) = false)
    (hs2 : substrOf "senior" (toLowerStr rt) = false)
    (hj1 : substrOf "junior" (toLowerStr jd) = false)
    (hj2 : substrOf "junior" (toLowerStr rt) = false)
    (he1 : substrOf "entry-level" (toLowerStr jd) = false)
    (he2 : substrOf "entry-level" (toLowerStr rt) = false) :
    experienceScore expReq jd rt = some (17/20) := by
  obtain ⟨jm, jM⟩ := b
  have hlead1 : substrOf "lead" (toLowerStr jd) = true := substrOf_trans (by decide) hjd
  have hlead2 : substrOf "lead" (toLowerStr rt) = true := substrOf_trans (by decide) hrt
  unfold experienceScore
  rw [if_pos ⟨h1, h2⟩, hp, he]
  simp [hs1, hs2, hj1, hj2, he1, he2, hlead1, hlead2]

/-- Witness for C10 at concrete texts both containing "leadership". -/
theorem C10_witness :
    experienceScore "3-5" "leadership role" "great leadership" = some (17/20) :=
  C10_keyword_substring "3-5" "leadership role" "great leadership" (3, some 5)
    (by decide) (by decide) (by decide) (by decide) (by decide) (by decide)
    (by decide) (by decide) (by decide) (by decide) (by decide) (by decide)

/-! ### C1: the pipeline's score range and error behavior -/

/-- C1 counterexample: the malformed experience requirement "a-b"
makes the whole screening pipeline raise (modelled by `none`) instead
of producing a score, refuting "no input causes an error". -/
theorem C1_counterexample :
    screenPipeline true true 0 0 "" ["python"] "a-b" "" "resume text" ["python"] = none :=
  rfl

theorem experienceScore_isSome (expReq jd rt : String)
    (h : expReq = "" ∨ expReq = "Any" ∨ (parseJobExp expReq).isSome = true) :
    ∃ e, experienceScore expReq jd rt = some e := by
  unfold experienceScore
  by_cases hc : expReq ≠ "" ∧ expReq ≠ "Any"
  · rw [if_pos hc]
    have hps : (parseJobExp expReq).isSome = true := by
      rcases h with h | h | h
      · exact absurd h hc.1
      · exact absurd h hc.2
      · exact h
    obtain ⟨⟨jm, jM⟩, hb⟩ := Option.isSome_iff_exists.mp hps
    rw [hb]
    cases extractResumeYears rt with
    | some p => exact ⟨_, congrArg some rfl⟩
    | none => exact ⟨_, rfl⟩
  · rw [if_neg hc]
    exact ⟨0, rfl⟩

theorem screenFinalScore_bounds (sc : ℚ) (h0 : 0 ≤ sc) (dm : Bool) :
    0 ≤ screenFinalScore sc dm ∧ screenFinalScore sc dm ≤ 100 := by
  unfold screenFinalScore
  constructor
  · apply le_min _ (by norm_num)
    have hf : (0 : ℚ) ≤ sc * (if dm then 21/20 else 1) := by
      apply mul_nonneg h0
      cases dm <;> norm_num
    unfold pyInt
    rw [if_pos hf]
    exact Int.floor_nonneg.mpr hf
  · exact min_le_right _ _

/-- C1 amended: on every input whose experience requirement is empty,
"Any", or parses successfully, the pipeline returns an integer score
in [0, 100]; a malformed experience requirement instead raises
(`C1_counterexample`), so the claim's "no input causes an error" does
not hold unconditionally. -/
theorem C1_score_range (modelLoaded embedOk : Bool) (embedSim tfidfSim : ℚ)
    (jd : String) (req : List String) (expReq dept rt : String) (ext : List String)
    (h : expReq = "" ∨ expReq = "Any" ∨ (parseJobExp expReq).isSome = true) :
    ∃ n : ℤ, screenPipeline modelLoaded embedOk embedSim tfidfSim
      jd req expReq dept rt ext = some n ∧ 0 ≤ n ∧ n ≤ 100 := by
  obtain ⟨e, he⟩ := experienceScore_isSome expReq jd rt h
  unfold screenPipeline calculate_match_score_enhanced
  rw [he]
  simp only [Option.map_some']
  refine ⟨_, rfl, ?_⟩
  apply screenFinalScore_bounds
  exact le_min (le_max_right _ 0) (by norm_num)

/-- Witness for C1 at a concrete well-formed input. -/
theorem C1_witness :
    ∃ n : ℤ, screenPipeline true true 0 0 "senior developer" ["python"] "3-5"
      "Engineering" "senior python developer 4 years experience" ["python"] = some n ∧
      0 ≤ n ∧ n ≤ 100 :=
  C1_score_range true true 0 0 "senior developer" ["python"] "3-5"
    "Engineering" "senior python developer 4 years experience" ["python"]
    (Or.inr (Or.inr (by decide)))

/-! ### C7: skill extraction, dots vs spaces -/

theorem mem_extract_iff (name text : String) :
    name ∈ extract_skills_from_text text ↔
      ∃ s, s ∈ common_skills ∧ skillFound s (toLowerStr text) = true ∧
        removeAllChar '.' s = name := by
  unfold extract_skills_from_text
  simp only [List.mem_dedup, List.mem_map, List.mem_filter]
  constructor
  · rintro ⟨s, ⟨hmem, hfound⟩, hrep⟩
    exact ⟨s, hmem, hfound, hrep⟩
  · rintro ⟨s, hmem, hfound, hrep⟩
    exact ⟨s, ⟨hmem, hfound⟩, hrep⟩

/-- C7 counterexample: "machine learning" is a multi-word skill phrase
of the dictionary, yet the text "machinelearning" (the phrase with its
internal space omitted) does not yield it — the internal space is a
required literal, not an optional separator. -/
theorem C7_counterexample :
    "machine learning" ∈ common_skills ∧
    skillFound "machine learning" (toLowerStr "machinelearning") = false ∧
    "machine learning" ∉ extract_skills_from_text "machinelearning" := by
  refine ⟨by decide, by decide, by decide⟩

/-- C7 amended: matching is whole-word and internal *dots* are optional
separators (a dot position may be a dot, a whitespace character, or
nothing), so "shred the document" does not yield "hr" while
"experienced in node.js" / "node js" / "nodejs" all yield the skill
"node.js", returned with its dot stripped as "nodejs"; internal spaces
of multi-word phrases are literal and required. -/
theorem C7_skill_extraction :
    "hr" ∉ extract_skills_from_text "shred the document" ∧
    "nodejs" ∈ extract_skills_from_text "experienced in node.js" ∧
    "nodejs" ∈ extract_skills_from_text "experienced in node js" ∧
    "nodejs" ∈ extract_skills_from_text "experienced in nodejs" ∧
    skillFound "machine learning" (toLowerStr "knows machine learning") = true := by
  refine ⟨by decide, ?_, ?_, ?_, by decide⟩ <;>
    · rw [mem_extract_iff]
      exact ⟨"node.js", by decide, by decide, by decide⟩

/-! ### C8: resume categorization priority and fallback -/

/-- C8: the category dictionary is evaluated in its fixed order with
first-match-wins, so any text with a whole-word "python" match is
"Tech" (the first category, before Marketing's "seo"); when no category
keyword matches, the result is "Other" exactly when one of the five
generic role nouns occurs as a substring, and "Uncategorized"
otherwise. -/
theorem C8_categorize :
    (∀ t, keywordFound "python" (toLowerStr t) = true → categorize_resume t = "Tech") ∧
    categorize_resume "python seo" = "Tech" ∧
    (∀ t, categories.find?
        (fun c => c.2.any (fun kw => keywordFound kw (toLowerStr t))) = none →
      categorize_resume t =
        if genericRoleNouns.any (fun k => substrOf k (toLowerStr t)) then "Other"
        else "Uncategorized") ∧
    categorize_resume "senior analyst" = "Other" ∧
    categorize_resume "hello world" = "Uncategorized" := by
  refine ⟨?_, by decide, ?_, by decide, by decide⟩
  · intro t h
    have hfind : List.find? (fun c => c.2.any fun kw => keywordFound kw (toLowerStr t))
        categories = some ("Tech", categories.head!.2) := by
      rw [show categories = ("Tech", categories.head!.2) :: categories.tail from rfl]
      apply List.find?_cons_of_pos
      exact List.any_eq_true.mpr ⟨"python", by decide, h⟩
    unfold categorize_resume
    simp only [hfind]
  · intro t hfind
    unfold categorize_resume
    simp only [hfind]

/-- Witness for C8: a concrete text with a whole-word "python" match. -/
theorem C8_witness : categorize_resume "i know python" = "Tech" :=
  C8_categorize.1 "i know python" (by decide)

/-! ### C9: the normalizer is total, pure and deterministic -/

/-- C9: `preprocess_text` is a total pure Lean function of its inputs
(it cannot raise by construction), the empty string maps to the empty
string, and two calls on the same input with the same tokenizer,
lemmatizer and stop-word list give the same output.  The external NLTK
tokenizer satisfies `tokenize "" = []`, taken as a hypothesis. -/
theorem C9_preprocess_total (tokenize : String → List String)
    (lemmatize : String → String) (stop_words : List String)
    (htok : tokenize "" = []) :
    preprocess_text tokenize lemmatize stop_words "" = "" ∧
    ∀ s, preprocess_text tokenize lemmatize stop_words s =
      preprocess_text tokenize lemmatize stop_words s := by
  refine ⟨?_, fun s => rfl⟩
  have hu : removeUrls [] = [] := by simp [removeUrls]
  have hm : removeMentions [] = [] := by simp [removeMentions]
  have hnil : ("" : String).toList = [] := rfl
  have hmk : String.mk [] = "" := rfl
  simp only [preprocess_text, toLowerStr, hnil, hu, hmk, hm, List.filter_nil,
    List.map_nil, htok]
  rfl

/-- Witness for C9, with a simple concrete stand-in for the external
tokenizer (NLTK's `word_tokenize` also returns `[]` on `""`). -/
theorem C9_witness :
    preprocess_text (fun s => if s = "" then [] else [s]) (fun w => w) [] "" = "" :=
  (C9_preprocess_total (fun s => if s = "" then [] else [s])
    (fun w => w) [] (by decide)).1

end FlaskBackend
